import Mathlib

/-!
Verification of the lt-server core (localtunnel server, TypeScript) against
its natural-language specification, via a shallow embedding in Lean 4.

Embedded modules:
* `PortManager` — the port-range allocator (src/lib/PortManager.ts).
* `TunnelAgent` — the per-client tunnel-socket pool (src/lib/TunnelAgent.ts).
* `Client` — the per-client session (src/lib/Client.ts).
* `ClientManager` — the registry (src/lib/ClientManager.ts).
* the kill endpoint of the HTTP router (src/server.ts).

JavaScript conventions used throughout the embedding:
* A JS object used as a dictionary (`Record<string, T|null>`) is modelled as a
  function `Nat → Option (Option T)`: `none` means the key is absent
  (JS `undefined`), `some none` means the key is present with value `null`,
  `some (some v)` means the key holds `v`.
* A possibly-`undefined` value is an `Option`.
* Mutation is modelled by explicit state passing; callback invocation is
  recorded as data (a list of calls), tagged with whether the call happens
  synchronously or is deferred with `setTimeout(fn, 0)`.
-/

namespace LtServer

/-! ## PortManager (src/lib/PortManager.ts)

```ts
constructor(opt?: {range?: string}) { this.range = opt.range; this.initializePool(); }
initializePool() {
  if (!this.range) return;
  if (!/^[0-9]+:[0-9]+$/.test(this.range)) throw BadRangeExpression;
  [this.first, this.last] = this.range.split(':').map(parseInt);
  if (this.first > this.last) throw BadRangeExpressionMinGtMax;
  for (let port = this.first; port <= this.last; port++) this.pool['_' + port] = null;
}
```
-/

/-- The pool field `Record<string, string|null>`, keyed by `'_' + port`:
`pool p = none` models an absent key, `some none` models value `null` (free),
`some (some id)` models ownership by `id`. -/
def Pool : Type := Nat → Option (Option String)

/-- Assignment `this.pool['_' + port] = v`. -/
def Pool.set (pool : Pool) (port : Nat) (v : Option String) : Pool :=
  fun q => if q = port then some v else pool q

structure PortManager where
  range : Option String
  first : Option Nat
  last : Option Nat
  pool : Pool

/-- JS `str.split(':')`, at the character level: the segments of the string
between colons (an empty string yields one empty segment, like JS). -/
def splitColon (cur : List Char) : List Char → List (List Char)
  | [] => [cur.reverse]
  | c :: rest =>
    if c = ':' then cur.reverse :: splitColon [] rest
    else splitColon (c :: cur) rest

/-- The regex `^[0-9]+:[0-9]+$`: exactly one `:`, a nonempty digit string on
each side. -/
def matchesRangeRegex (s : String) : Bool :=
  match splitColon [] s.data with
  | [a, b] => !a.isEmpty && !b.isEmpty && a.all Char.isDigit && b.all Char.isDigit
  | _ => false

/-- JS `parseInt` on a digit-only segment (guaranteed by the regex): the usual
base-10 left fold. -/
def parsePort : Nat → List Char → Nat
  | acc, [] => acc
  | acc, c :: rest => parsePort (acc * 10 + (c.toNat - 48)) rest

inductive InitError where
  /-- TS `throw new Error('Bad range expression: ...')` -/
  | badRange : InitError
  /-- TS `throw new Error('Bad range expression min > max: ...')` -/
  | minGtMax : InitError
deriving DecidableEq

/-- The constructor plus `initializePool`. The constructor body reads
`opt.range`, so the options object itself must be present (the code's own test
constructs with `new PortManager({})`); the argument here is the `range`
field of that object.

`initializePool` starts with the falsy guard `if (!this.range) return;`,
which fires both for `undefined` and for the empty string, BEFORE the regex
test: `new PortManager({range: ''})` therefore succeeds and behaves as
unconfigured.  Every later read of `this.range` in the class is likewise
behind a falsy guard (`if (!this.range)` in `release` and
`getNextAvailable`) or the normalisation `this.range || null` (`getRange`) —
the error-message concatenations are reachable only when the range is
truthy — so a stored `''` is observationally indistinguishable from
`undefined`, and the model stores the normalised `none` for a falsy
input. -/
def newPortManager (range : Option String) : Except InitError PortManager :=
  match range with
  | none => .ok { range := none, first := none, last := none, pool := fun _ => none }
  | some r =>
    if r.isEmpty then
      .ok { range := none, first := none, last := none, pool := fun _ => none }
    else if matchesRangeRegex r then
      match splitColon [] r.data with
      | [a, b] =>
        let f := parsePort 0 a
        let l := parsePort 0 b
        if f > l then .error .minGtMax
        else .ok { range := some r, first := some f, last := some l,
                   pool := fun p => if f ≤ p ∧ p ≤ l then some none else none }
      | _ => .error .badRange
    else .error .badRange

/-- Accessor `getRange()` returns `this.range || null`: a falsy value — an
unset field or the empty string — becomes `null`. -/
def PortManager.getRange (pm : PortManager) : Option String :=
  match pm.range with
  | none => none
  | some s => if s.isEmpty then none else some s

/-- Accessor `getFirst()` returns `this.first || null`: an unset field — or
the number `0`, also falsy in JS — becomes `null`. -/
def PortManager.getFirst (pm : PortManager) : Option Nat :=
  match pm.first with
  | none => none
  | some n => if n = 0 then none else some n

/-- Accessor `getLast()` returns `this.last || null`, with the same falsy
treatment as `getFirst()`. -/
def PortManager.getLast (pm : PortManager) : Option Nat :=
  match pm.last with
  | none => none
  | some n => if n = 0 then none else some n

/-- Operation `release(port)`: `if (!this.range) return; this.pool['_' + port] = null;`. -/
def PortManager.release (pm : PortManager) (port : Nat) : PortManager :=
  match pm.range with
  | none => pm
  | some _ => { pm with pool := pm.pool.set port none }

inductive AcquireOutcome where
  /-- the scan found a free port and returned it -/
  | port : Nat → AcquireOutcome
  /-- unconfigured allocator: `return undefined` (the OS picks) -/
  | sentinel : AcquireOutcome
  /-- TS `throw new Error('No more ports available in range ...')` -/
  | exhausted : AcquireOutcome
deriving DecidableEq

/-- The ascending list of ports scanned by
`for (let port = this.first; port <= this.last; port++)`. -/
def portScanList (f l : Nat) : List Nat := List.range' f (l + 1 - f)

/-- The loop body of `getNextAvailable`: take the first port whose pool entry
is `null` (strict `=== null`, so an absent key does not count as free),
mark it owned by `clientId`. -/
def scanPorts (pool : Pool) (clientId : String) : List Nat → Option (Nat × Pool)
  | [] => none
  | p :: rest =>
    if pool p = some none then some (p, pool.set p (some clientId))
    else scanPorts pool clientId rest

/-- Operation `getNextAvailable(clientId)`. When `range` is set but `first`/`last` are
not (unreachable from the constructor), the JS `for` loop compares against
`undefined`, runs zero iterations, and falls through to the throw; hence the
`exhausted` outcome in that corner. -/
def PortManager.getNextAvailable (pm : PortManager) (clientId : String) :
    AcquireOutcome × PortManager :=
  match pm.range with
  | none => (.sentinel, pm)
  | some _ =>
    match pm.first, pm.last with
    | some f, some l =>
      match scanPorts pm.pool clientId (portScanList f l) with
      | some (p, pool2) => (.port p, { pm with pool := pool2 })
      | none => (.exhausted, pm)
    | _, _ => (.exhausted, pm)

/-- A port is free for the scan: inside `[first, last]` and present in the
pool with value `null`. -/
def PortManager.isFree (pm : PortManager) (f l p : Nat) : Prop :=
  f ≤ p ∧ p ≤ l ∧ pm.pool p = some none

/-! ## TunnelAgent (src/lib/TunnelAgent.ts)

The agent keeps `availableSockets` (an array used FIFO through
`push`/`shift`), `waitingCreateConn` (FIFO of pending `createConnection`
callbacks), a `connectedSockets` counter, `maxTcpSockets`, and the
`started`/`closed` flags. Sockets and callbacks are identified by `Nat`
tags; invoking a callback is recorded as data. -/

/-- Identifier of a tunnel socket. -/
abbrev TSocket := Nat

/-- Identifier of a `createConnection` callback. -/
abbrev Waiter := Nat

/-- How a callback invocation is scheduled: directly within the current stack
frame, or deferred with `setTimeout(fn, 0)` to the next scheduler turn. -/
inductive CallTiming where
  | sync : CallTiming
  | deferred : CallTiming
deriving DecidableEq

/-- The argument pair a `TunnelConnectionCallback` receives:
`ok sock` for `cb(null, socket)`, `agentClosed` for
`cb(new Error('closed'))`. -/
inductive CbArg where
  | ok : TSocket → CbArg
  | agentClosed : CbArg
deriving DecidableEq

/-- One recorded callback invocation. -/
structure Call where
  timing : CallTiming
  target : Waiter
  arg : CbArg
deriving DecidableEq

/-- The mutable per-agent state. `connectedSockets` is a JS number that the
socket-close handler decrements, so it is an `Int`. -/
structure AgentState where
  connectedSockets : Int
  maxTcpSockets : Nat
  availableSockets : List TSocket
  waitingCreateConn : List Waiter
  started : Bool
  closed : Bool
deriving DecidableEq

/-- Result of `_onConnection`: the next state, whether the incoming socket
was destroyed at admission, whether `online` was emitted, and the callback
invocations issued. -/
structure AdmitResult where
  state : AgentState
  destroyedNew : Bool
  onlineEmitted : Bool
  calls : List Call
deriving DecidableEq

/-- Handler `_onConnection(socket)`:

```ts
if (this.connectedSockets >= this.maxTcpSockets) { socket.destroy(); return }
socket.once('close', ...bookkeeping...);
socket.once('error', ...);
if (this.connectedSockets === 0) { this.emit('online'); }
this.connectedSockets += 1;
const fn = this.waitingCreateConn.shift();
if (fn) { setTimeout(() => { fn(null, socket); }, 0); return }
this.availableSockets.push(socket);
```
-/
def TunnelAgent.onConnection (s : AgentState) (sock : TSocket) : AdmitResult :=
  if s.connectedSockets ≥ (s.maxTcpSockets : Int) then
    { state := s, destroyedNew := true, onlineEmitted := false, calls := [] }
  else
    let onlineEmitted := s.connectedSockets = 0
    let s1 := { s with connectedSockets := s.connectedSockets + 1 }
    match s.waitingCreateConn with
    | fn :: rest =>
      { state := { s1 with waitingCreateConn := rest },
        destroyedNew := false, onlineEmitted := onlineEmitted,
        calls := [{ timing := .deferred, target := fn, arg := .ok sock }] }
    | [] =>
      { state := { s1 with availableSockets := s.availableSockets ++ [sock] },
        destroyedNew := false, onlineEmitted := onlineEmitted, calls := [] }

/-- Result of `_onClose` of the acceptor: next state, callback invocations,
and whether `end` was emitted. -/
structure AgentCloseResult where
  state : AgentState
  calls : List Call
  endEmitted : Bool
deriving DecidableEq

/-- Handler `_onClose()`:

```ts
this.closed = true;
for (const conn of this.waitingCreateConn) { conn(new Error('closed'), null); }
this.waitingCreateConn.splice(0)
this.emit('end');
```
-/
def TunnelAgent.onClose (s : AgentState) : AgentCloseResult :=
  { state := { s with closed := true, waitingCreateConn := [] },
    calls := s.waitingCreateConn.map
      (fun w => { timing := .sync, target := w, arg := .agentClosed }),
    endEmitted := true }

/-- Result of `createConnection`: next state and callback invocations. -/
structure ConnResult where
  state : AgentState
  calls : List Call
deriving DecidableEq

/-- Operation `createConnection(options, cb)`:

```ts
if (this.closed) { cb(new Error('closed')); return; }
const sock = this.availableSockets.shift();
if (!sock) { this.waitingCreateConn.push(cb); return; }
cb(null, sock);
```
-/
def TunnelAgent.createConnection (s : AgentState) (cb : Waiter) : ConnResult :=
  if s.closed then
    { state := s, calls := [{ timing := .sync, target := cb, arg := .agentClosed }] }
  else
    match s.availableSockets with
    | sock :: rest =>
      { state := { s with availableSockets := rest },
        calls := [{ timing := .sync, target := cb, arg := .ok sock }] }
    | [] =>
      { state := { s with waitingCreateConn := s.waitingCreateConn ++ [cb] },
        calls := [] }

/-! ## Client (src/lib/Client.ts) -/

/-- The payload object produced by `jwt.decode(token, {complete: false})`.
Only the `name` claim is read by the code; `name := none` models a payload
without a `name` property (JS `undefined`). -/
structure JwtPayload where
  name : Option String
deriving DecidableEq

/-- JS `token.replace(/Bearer /, '')`: removes the first occurrence of the
substring `"Bearer "`, if any. -/
def stripBearer (s : String) : String :=
  match s.splitOn "Bearer " with
  | [] => s
  | [x] => x
  | x :: rest => x ++ String.intercalate "Bearer " rest

/-- JS optional chaining `tok?.name` where `tok` is the result of
`jwt.decode` (`payload | null`): `null?.name` is `undefined` (`none`), and an
absent `name` property is also `undefined`. -/
def jsName (tok : Option JwtPayload) : Option String :=
  match tok with
  | none => none
  | some p => p.name

/-- Method `isSecurityTokenEqual(clientSecret)`:

```ts
const decodeJWT = (token) => jwt.decode(token.replace(/Bearer /, ''), {complete: false});
if (this.secret === null) return false;
try {
  const serverToken = decodeJWT(this.secret);
  const clientToken = decodeJWT(clientSecret);
  return serverToken?.name === clientToken?.name;
} catch (error) { return false; }
```

`decode` is the behaviour of the `jsonwebtoken` library's `jwt.decode`,
which returns `null` (here `none`) for a string that is not a well-formed
JWT, rather than throwing.  A `none` stored secret models `null` (caught by
the `=== null` test) or `undefined` (`undefined.replace` throws a TypeError
that the `try` swallows); a `none` supplied token models a request without
an `Authorization` header, where `decodeJWT(undefined)` likewise throws and
the `catch` returns `false`. `===` on two possibly-`undefined` strings is
equality on `Option String`. -/
def isSecurityTokenEqual (decode : String → Option JwtPayload)
    (secret : Option String) (clientSecret : Option String) : Bool :=
  match secret with
  | none => false
  | some s =>
    match clientSecret with
    | none => false
    | some cs => jsName (decode (stripBearer s)) == jsName (decode (stripBearer cs))

/-! ### Session close and the registry's cleanup listener

`Client.close()` is:

```ts
close() { clearTimeout(this.graceTimeout); this.agent.destroy(); this.emit('close'); }
```

and `ClientManager.newClient` subscribes `client.once('close', () => {
this.removeClient(id); })`, where `ClientManager.removeClient` is:

```ts
removeClient(id) {
  const client = this.clients[id];
  if (!client) return;
  this.portManager.release(client.getAgent().getPort());
  --this.stats.tunnels;
  delete this.clients[id];
  client.close();
}
```

`emit` is synchronous and an EventEmitter disarms a `once` listener before
invoking it.  `CloseSys` tracks one session together with its registry
entry: the grace timer, how many times `agent.destroy()` ran, how many times
the `close` event was emitted, whether the registry's `once('close')`
listener is still armed, whether the session is still in the `clients` map,
and the registry's `stats.tunnels` counter. Port release is bookkeeping on
the shared allocator and does not feed back into this cascade, so it is not
tracked here (it is tracked in the `MState` registry model below). -/
structure CloseSys where
  graceArmed : Bool
  agentDestroys : Nat
  closeEmits : Nat
  onceCloseArmed : Bool
  inMap : Bool
  tunnels : Int
deriving DecidableEq

/-- Termination measure for the `close()` / `removeClient` cascade: the
`once` listener can fire at most once, and the map entry is deleted before
the re-entrant `close()`. -/
def CloseSys.measure (s : CloseSys) : Nat :=
  (if s.onceCloseArmed then 2 else 0) + (if s.inMap then 1 else 0)

mutual

/-- Method `Client.close()`: cancel the grace timer, destroy the agent, emit
`close`; emitting runs the registry's `once('close')` listener (disarmed
first) synchronously when it is still armed. -/
def clientClose (s : CloseSys) : CloseSys :=
  let s1 : CloseSys :=
    { s with graceArmed := false,
             agentDestroys := s.agentDestroys + 1,
             closeEmits := s.closeEmits + 1 }
  if h : s.onceCloseArmed then
    managerRemoveClient { s1 with onceCloseArmed := false }
  else s1
termination_by s.measure
decreasing_by simp [CloseSys.measure, h] <;> omega

/-- Method `ClientManager.removeClient(id)` restricted to this session: if the
entry is present, release the port (untracked here), decrement
`stats.tunnels`, delete the entry, then call `client.close()`. -/
def managerRemoveClient (s : CloseSys) : CloseSys :=
  if h : s.inMap then
    clientClose { s with inMap := false, tunnels := s.tunnels - 1 }
  else s
termination_by s.measure
decreasing_by simp [CloseSys.measure, h] <;> omega

end

/-! ## ClientManager (src/lib/ClientManager.ts)

Registry-level model.  The `clients` map is an association list with unique
keys; each entry keeps the data the registry reads back: the stored secret
and the agent's bound port (`agent.getPort()`, `undefined` until `listen()`
resolves).  Mutable session-local fields (grace timer, emit counters) are
tracked by `CloseSys` above and do not feed back into registry state. -/

/-- What the registry reads from a stored `Client`. -/
structure StoredClient where
  secret : Option String
  agentPort : Option Nat
deriving DecidableEq

/-- Registry state: `clients`, `stats.tunnels` (a JS number, decremented
unconditionally in `removeClient`, hence `Int`), the shared `PortManager`,
and the `max_tcp_sockets` option. -/
structure MState where
  clients : List (String × StoredClient)
  tunnels : Int
  pm : PortManager
  maxTcpSockets : Option Nat

/-- Lookup `this.clients[id]`. -/
def mlookup (cs : List (String × StoredClient)) (id : String) : Option StoredClient :=
  match cs.find? (fun kv => kv.1 = id) with
  | some kv => some kv.2
  | none => none

/-- Assignment `this.clients[id] = client`: overwrite if the key exists, else append. -/
def mset (cs : List (String × StoredClient)) (id : String) (c : StoredClient) :
    List (String × StoredClient) :=
  match cs with
  | [] => [(id, c)]
  | kv :: rest => if kv.1 = id then (id, c) :: rest else kv :: mset rest id c

/-- Deletion `delete this.clients[id]`. -/
def merase (cs : List (String × StoredClient)) (id : String) :
    List (String × StoredClient) :=
  match cs with
  | [] => []
  | kv :: rest => if kv.1 = id then rest else kv :: merase rest id

/-- The call `this.portManager.release(client.getAgent().getPort())` where the port
may be `undefined` (listen never resolved).  In JS a `undefined` argument
writes the junk key `'_undefined'`, which no other operation ever reads, so
it is modelled as leaving the allocator unchanged. -/
def releaseOpt (pm : PortManager) (port : Option Nat) : PortManager :=
  match port with
  | none => pm
  | some p => pm.release p

/-- Method `ClientManager.removeClient(id)`:

```ts
const client = this.clients[id];
if (!client) return;
this.portManager.release(client.getAgent().getPort());
--this.stats.tunnels;
delete this.clients[id];
client.close();
```

`client.close()` emits `close`; if the registry's `once('close')` listener is
still armed it re-invokes `removeClient(id)`, which finds the entry already
deleted and returns — so the cascade (see `clientClose`/`managerRemoveClient`)
has no further effect on registry state. -/
def MState.removeClient (m : MState) (id : String) : MState :=
  match mlookup m.clients id with
  | none => m
  | some c =>
    { m with pm := releaseOpt m.pm c.agentPort,
             tunnels := m.tunnels - 1,
             clients := merase m.clients id }

/-- Constructor `new ClientManager(opt)`: constructs the shared `PortManager` (whose
constructor may throw) and zeroes the stats. -/
def newClientManager (maxTcpSockets : Option Nat) (range : Option String) :
    Except InitError MState :=
  match newPortManager range with
  | .error e => .error e
  | .ok pm => .ok { clients := [], tunnels := 0, pm := pm, maxTcpSockets := maxTcpSockets }

/-- The value `newClient` resolves with. -/
structure NewClientInfo where
  id : String
  port : Nat
  maxConnCount : Nat
deriving DecidableEq

/-- Errors of `newClient`: it can only reject with the error thrown by
`portManager.getNextAvailable` inside `agent.listen()`. -/
inductive NewClientError where
  | exhaustedRange : NewClientError
deriving DecidableEq

/-- Method `ClientManager.newClient(id?, secret?)`.

```ts
if (!id || clients[id]) { id = hri.random(); }
const maxSockets = this.opt.max_tcp_sockets || 10;
const agent = new TunnelAgent({...}); const client = new Client({id, agent, secret});
clients[id] = client;
client.once('close', () => { this.removeClient(id); });
try {
  const info = await agent.listen();
  ++stats.tunnels;
  return { id, port: info.port, max_conn_count: maxSockets };
} catch (err) { this.removeClient(id); throw err; }
```

`agent.listen()` asks the shared allocator for a port (`undefined` when no
range is configured, in which case the OS assigns one — modelled by the
`osPort` argument) and binds the acceptor; the only failure is the
ExhaustedRange throw from `getNextAvailable`.  `freshId` models
`hri.random()`.  Note `!id` is also true for the empty string.  The result
pairs the registry state after the call with the resolved value or the
rethrown error; on failure the `catch` branch runs `removeClient(id)` on the
state holding the pre-inserted entry before rethrowing. -/
def MState.newClient (m : MState) (reqId : Option String) (secret : Option String)
    (freshId : String) (osPort : Nat) :
    MState × Except NewClientError NewClientInfo :=
  let id := match reqId with
    | none => freshId
    | some r => if r.isEmpty ∨ (mlookup m.clients r).isSome then freshId else r
  let maxSockets := match m.maxTcpSockets with
    | none => 10
    | some n => if n = 0 then 10 else n
  let inserted := mset m.clients id { secret := secret, agentPort := none }
  match m.pm.getNextAvailable id with
  | (.sentinel, pm2) =>
    ({ m with clients := mset inserted id { secret := secret, agentPort := some osPort },
              tunnels := m.tunnels + 1, pm := pm2 },
     .ok { id := id, port := osPort, maxConnCount := maxSockets })
  | (.port p, pm2) =>
    ({ m with clients := mset inserted id { secret := secret, agentPort := some p },
              tunnels := m.tunnels + 1, pm := pm2 },
     .ok { id := id, port := p, maxConnCount := maxSockets })
  | (.exhausted, pm2) =>
    (MState.removeClient { m with clients := inserted, pm := pm2 } id,
     .error .exhaustedRange)

/-- Method `hasClient(id)` is `!!this.clients[id]`. -/
def MState.hasClient (m : MState) (id : String) : Bool :=
  (mlookup m.clients id).isSome

/-! ## The kill endpoint (src/server.ts)

```ts
router.post('/api/tunnels/:id/kill', async (ctx, next) => {
  const clientId = ctx.params.id;
  if (!opt.secret) { ctx.throw(403, {message: 'secret is missing'}); return; }
  if (!manager.hasClient(clientId)) { ctx.throw(404, {message: '... is not connected'}); }
  const token = ctx.request.headers.authorization;
  if (!manager.getClient(clientId).isSecurityTokenEqual(token)) { ctx.throw(403, ...); }
  manager.removeClient(clientId);
  ctx.status = 200; ctx.body = {...};
});
```

`ctx.throw` raises, so each failing check stops the handler even without a
`return`. -/

/-- The four possible responses of the kill handler. -/
inductive KillResponse where
  /-- status 403, body `'secret is missing'` -/
  | forbiddenMissingSecret : KillResponse
  /-- status 404, `client with id ... is not connected` -/
  | notFoundUnknownId : KillResponse
  /-- status 403, token mismatch -/
  | forbiddenTokenMismatch : KillResponse
  /-- status 200, client removed -/
  | killed : KillResponse
deriving DecidableEq

/-- The kill handler.  `optSecret` is `opt.secret` (`!opt.secret` is truthy
for `undefined` and for the empty string); `authHeader` is
`ctx.request.headers.authorization`, absent when the caller sent no
`Authorization` header; `decode` is the `jwt.decode` behaviour as in
`isSecurityTokenEqual`. -/
def killHandler (optSecret : Option String) (decode : String → Option JwtPayload)
    (m : MState) (clientId : String) (authHeader : Option String) :
    KillResponse × MState :=
  let secretMissing := match optSecret with
    | none => true
    | some s => s.isEmpty
  if secretMissing then (.forbiddenMissingSecret, m)
  else match mlookup m.clients clientId with
  | none => (.notFoundUnknownId, m)
  | some c =>
    if isSecurityTokenEqual decode c.secret authHeader then
      (.killed, m.removeClient clientId)
    else (.forbiddenTokenMismatch, m)

/-! ## Client.handleRequest (src/lib/Client.ts)

```ts
const clientReq = http.request(opt, (clientRes) => {
  res.writeHead(clientRes.statusCode, clientRes.headers);
  pump(clientRes, res);
});
clientReq.once('error', (err) => {
  // TODO(roman): if headers not sent - respond with gateway unavailable
});
pump(req, clientReq);
```

The proxied response `res` is modelled by what was written to it; the two
events that can reach the handler's callbacks are a tunnel response arriving
and the outbound request erroring. -/

/-- The public `res` object, as observed by the caller: the status line and
headers written by `writeHead` (if any), and whether the response was
ended. -/
structure ProxyRes where
  headWritten : Option Nat
  ended : Bool
deriving DecidableEq

/-- An event delivered to `handleRequest`'s callbacks. -/
inductive ProxyEvent where
  /-- the tunnel delivered a response with this status: the callback runs
  `res.writeHead(statusCode, headers)` and pumps the body into `res`,
  ending it -/
  | response : Nat → ProxyEvent
  /-- the outbound `clientReq` emitted `error` -/
  | reqError : ProxyEvent

/-- One step of `handleRequest`'s response handling: the `http.request`
callback writes head and streams the body; the `once('error')` handler body
is empty (an unimplemented TODO), so a request error changes nothing. -/
def handleRequestStep (res : ProxyRes) (ev : ProxyEvent) : ProxyRes :=
  match ev with
  | .response status => { headWritten := some status, ended := true }
  | .reqError => res

/-! # Theorems -/

/-- Unfolding: `close()` with the cleanup listener already disarmed. -/
theorem clientClose_once_false {s : CloseSys} (h : s.onceCloseArmed = false) :
    clientClose s = { s with graceArmed := false,
                             agentDestroys := s.agentDestroys + 1,
                             closeEmits := s.closeEmits + 1 } := by
  rw [clientClose]
  simp [h]

/-- Unfolding: `close()` with the cleanup listener still armed dispatches to
`removeClient` after disarming it. -/
theorem clientClose_once_true {s : CloseSys} (h : s.onceCloseArmed = true) :
    clientClose s = managerRemoveClient
      { s with graceArmed := false,
               agentDestroys := s.agentDestroys + 1,
               closeEmits := s.closeEmits + 1,
               onceCloseArmed := false } := by
  rw [clientClose]
  simp [h]

/-- Unfolding: `removeClient` on an absent session. -/
theorem managerRemoveClient_absent {s : CloseSys} (h : s.inMap = false) :
    managerRemoveClient s = s := by
  rw [managerRemoveClient]
  simp [h]

/-- Unfolding: `removeClient` on a present session deletes it, decrements the
counter and calls `close()`. -/
theorem managerRemoveClient_present {s : CloseSys} (h : s.inMap = true) :
    managerRemoveClient s =
      clientClose { s with inMap := false, tunnels := s.tunnels - 1 } := by
  rw [managerRemoveClient]
  simp [h]

/-- C1 counterexample: a session that is registered (`inMap`) with the
registry's `once('close')` cleanup listener still armed — the state of every
session right after a successful `newClient` — emits the `close` event twice
when `close()` is triggered by grace-timer expiry or agent error: the first
emission runs the cleanup listener, whose `removeClient` calls `close()`
again, which emits a second time.  The claim requires exactly one emission
per session. -/
theorem C1_grace_expiry_emits_twice :
    (clientClose { graceArmed := true, agentDestroys := 0, closeEmits := 0,
                   onceCloseArmed := true, inMap := true, tunnels := 1 }).closeEmits = 2 := by
  rw [clientClose_once_true rfl, managerRemoveClient_present rfl,
      clientClose_once_false rfl]

/-- C1 (amended): every `close()` invocation cancels the grace timer and
destroys the agent, and emits `close` once per invocation rather than once
per session.  The registry's `once('close')` listener fires at most once, so
registry-initiated removal emits `close` exactly once; but a close triggered
directly on a registered session (grace-timer expiry or agent error)
re-enters `close()` through that listener and emits `close` twice, also
destroying the agent twice.  `removeClient` on an absent session is a
no-op. -/
theorem C1_close_cascade (s : CloseSys) :
    (clientClose s).graceArmed = false ∧
    (s.onceCloseArmed = false →
      clientClose s = { s with graceArmed := false,
                               agentDestroys := s.agentDestroys + 1,
                               closeEmits := s.closeEmits + 1 }) ∧
    (s.onceCloseArmed = true → s.inMap = true →
      (clientClose s).closeEmits = s.closeEmits + 2 ∧
      (clientClose s).agentDestroys = s.agentDestroys + 2 ∧
      (clientClose s).inMap = false ∧
      (clientClose s).onceCloseArmed = false) ∧
    (s.onceCloseArmed = true → s.inMap = false →
      (clientClose s).closeEmits = s.closeEmits + 1 ∧
      (clientClose s).agentDestroys = s.agentDestroys + 1) ∧
    (s.inMap = true → s.onceCloseArmed = true →
      (managerRemoveClient s).closeEmits = s.closeEmits + 1 ∧
      (managerRemoveClient s).agentDestroys = s.agentDestroys + 1 ∧
      (managerRemoveClient s).inMap = false) ∧
    (s.inMap = false → managerRemoveClient s = s) := by
  cases hOnce : s.onceCloseArmed <;> cases hMap : s.inMap <;>
    simp only [clientClose_once_false, clientClose_once_true,
               managerRemoveClient_absent, managerRemoveClient_present, hOnce, hMap,
               Bool.true_eq_false, Bool.false_eq_true] <;>
    simp_all [clientClose_once_false, clientClose_once_true,
              managerRemoveClient_absent, managerRemoveClient_present]

/-- C1 witness: `removeClient` on a freshly registered session emits `close`
exactly once. -/
theorem C1_close_cascade_witness :
    (managerRemoveClient { graceArmed := true, agentDestroys := 0, closeEmits := 0,
                           onceCloseArmed := true, inMap := true, tunnels := 1 }).closeEmits
      = 0 + 1 :=
  ((C1_close_cascade _).2.2.2.2.1 rfl rfl).1

/-- C2: at the claim's failing input — the outbound tunnel request errors —
the `once('error')` handler of `clientReq` is an unimplemented TODO and
leaves the public response exactly as it was: in particular, when no headers
had been written, no 502-class status (nor any status) is ever written and
the response is not ended.  The public caller receives nothing, contradicting
the claim. -/
theorem C2_request_error_writes_nothing (res : ProxyRes) :
    handleRequestStep res .reqError = res := rfl

/-- C4 counterexample: with the library behaviour of `jwt.decode` — which
returns `null` for a string that is not a well-formed JWT instead of
throwing — a stored secret and a supplied token that BOTH fail to decode
make `isSecurityTokenEqual` return `true`: `null?.name === null?.name` is
`undefined === undefined`.  The claim requires `false` whenever either token
fails to decode. -/
theorem C4_both_undecodable_judged_equal :
    isSecurityTokenEqual (fun _ => none) (some "not-a-jwt") (some "garbage") = true := by
  rfl

/-- C4 (amended): `isSecurityTokenEqual` returns `true` iff a stored secret
and a supplied token are both present (a `null`/`undefined` stored secret or
a missing Authorization header yields `false`) and the `name` fields reached
by optional chaining through `jwt.decode` agree — where a token that fails
to decode, or decodes to a payload without a `name` claim, contributes
`undefined`, so two undecodable tokens (or two payloads both lacking `name`)
are judged equal. -/
theorem C4_name_claim_equality (decode : String → Option JwtPayload)
    (secret clientSecret : Option String) :
    isSecurityTokenEqual decode secret clientSecret = true ↔
      ∃ s cs, secret = some s ∧ clientSecret = some cs ∧
        jsName (decode (stripBearer s)) = jsName (decode (stripBearer cs)) := by
  cases secret <;> cases clientSecret <;> simp [isSecurityTokenEqual]

/-- C4 witness: two tokens whose payloads decode to the same `name` are
judged equal. -/
theorem C4_name_claim_equality_witness :
    isSecurityTokenEqual (fun _ => some { name := some "alice" })
      (some "token-one") (some "token-two") = true :=
  (C4_name_claim_equality _ _ _).mpr ⟨"token-one", "token-two", rfl, rfl, rfl⟩

/-- C10: in the kill handler the configured-secret check precedes the
client-existence check, which precedes the token check: with no secret
configured (absent or empty, both falsy) every id — including ids absent
from the registry — gets the 403 `secret is missing` response; a 404 is
returned exactly when a non-empty secret is configured and the id is
unknown; and the token-mismatch 403 implies the client exists. -/
theorem C10_kill_check_order :
    (∀ decode m id auth,
       (killHandler none decode m id auth).1 = .forbiddenMissingSecret) ∧
    (∀ decode m id auth,
       (killHandler (some "") decode m id auth).1 = .forbiddenMissingSecret) ∧
    (∀ optSecret decode (m : MState) id auth,
       (killHandler optSecret decode m id auth).1 = .notFoundUnknownId ↔
         (∃ s, optSecret = some s ∧ s.isEmpty = false) ∧ m.hasClient id = false) ∧
    (∀ optSecret decode (m : MState) id auth,
       (killHandler optSecret decode m id auth).1 = .forbiddenTokenMismatch →
         m.hasClient id = true) := by
  refine ⟨fun decode m id auth => rfl, fun decode m id auth => rfl, ?_, ?_⟩
  · intro optSecret decode m id auth
    cases optSecret with
    | none => simp [killHandler, MState.hasClient]
    | some s =>
      by_cases hs : s.isEmpty
      · simp [killHandler, hs]
      · cases h : mlookup m.clients id with
        | none => simp [killHandler, hs, h, MState.hasClient]
        | some c =>
          by_cases ht : isSecurityTokenEqual decode c.secret auth <;>
            simp [killHandler, hs, h, ht, MState.hasClient]
  · intro optSecret decode m id auth
    cases optSecret with
    | none => simp [killHandler]
    | some s =>
      by_cases hs : s.isEmpty
      · simp [killHandler, hs]
      · cases h : mlookup m.clients id with
        | none => simp [killHandler, hs, h]
        | some c =>
          by_cases ht : isSecurityTokenEqual decode c.secret auth <;>
            simp [killHandler, hs, h, ht, MState.hasClient]

/-- C10 witness: with no configured secret, killing an id that is not in the
(empty) registry still yields the missing-secret 403, and the 404 appears
for the same state once a secret is configured. -/
theorem C10_kill_check_order_witness :
    (killHandler none (fun _ => none)
       { clients := [], tunnels := 0,
         pm := { range := none, first := none, last := none, pool := fun _ => none },
         maxTcpSockets := none } "ghost" none).1 = .forbiddenMissingSecret ∧
    (killHandler (some "sec") (fun _ => none)
       { clients := [], tunnels := 0,
         pm := { range := none, first := none, last := none, pool := fun _ => none },
         maxTcpSockets := none } "ghost" none).1 = .notFoundUnknownId :=
  ⟨C10_kill_check_order.1 _ _ _ _,
   (C10_kill_check_order.2.2.1 _ _ _ _ _).mpr ⟨⟨"sec", rfl, rfl⟩, rfl⟩⟩

/-- C5: socket admission.  At or above the cap the incoming socket is
destroyed and nothing else changes.  Below the cap `connectedSockets` is
incremented and `online` is emitted exactly on the transition from 0; with a
waiter queued, the socket goes to the oldest waiter through a callback
deferred with `setTimeout(fn, 0)` — every callback issued by admission is
deferred, never synchronous — leaving `availableSockets` untouched; with no
waiter it is appended to `availableSockets` and no callback is issued. -/
theorem C5_socket_admission (s : AgentState) (sock : TSocket) :
    (s.connectedSockets ≥ (s.maxTcpSockets : Int) →
      TunnelAgent.onConnection s sock =
        { state := s, destroyedNew := true, onlineEmitted := false, calls := [] }) ∧
    (s.connectedSockets < (s.maxTcpSockets : Int) →
      (TunnelAgent.onConnection s sock).destroyedNew = false ∧
      (TunnelAgent.onConnection s sock).state.connectedSockets = s.connectedSockets + 1 ∧
      ((TunnelAgent.onConnection s sock).onlineEmitted = true ↔ s.connectedSockets = 0) ∧
      (∀ w rest, s.waitingCreateConn = w :: rest →
        (TunnelAgent.onConnection s sock).calls =
          [{ timing := .deferred, target := w, arg := .ok sock }] ∧
        (TunnelAgent.onConnection s sock).state.waitingCreateConn = rest ∧
        (TunnelAgent.onConnection s sock).state.availableSockets = s.availableSockets) ∧
      (s.waitingCreateConn = [] →
        (TunnelAgent.onConnection s sock).calls = [] ∧
        (TunnelAgent.onConnection s sock).state.availableSockets
          = s.availableSockets ++ [sock] ∧
        (TunnelAgent.onConnection s sock).state.waitingCreateConn = [])) ∧
    (∀ c ∈ (TunnelAgent.onConnection s sock).calls, c.timing = CallTiming.deferred) := by
  by_cases hcap : s.connectedSockets ≥ (s.maxTcpSockets : Int)
  · refine ⟨fun _ => by simp [TunnelAgent.onConnection, hcap], fun hlt => absurd hlt (by omega), ?_⟩
    simp [TunnelAgent.onConnection, hcap]
  · refine ⟨fun hge => absurd hge hcap, fun _ => ?_, ?_⟩ <;>
      cases hw : s.waitingCreateConn <;>
        simp [TunnelAgent.onConnection, hcap, hw]

/-- C5 witness: a fresh below-cap agent with one queued waiter hands the
admitted socket to that waiter by a deferred callback. -/
theorem C5_socket_admission_witness :
    (TunnelAgent.onConnection
      { connectedSockets := 0, maxTcpSockets := 10, availableSockets := [],
        waitingCreateConn := [7], started := true, closed := false } 42).calls =
      [{ timing := .deferred, target := 7, arg := .ok 42 }] :=
  (((C5_socket_admission _ 42).2.1 (by decide)).2.2.2.1 7 [] rfl).1

/-- C6: acceptor shutdown.  `_onClose` marks the agent closed, invokes every
queued waiter's callback with the AgentClosed error (`new Error('closed')`),
clears the waiter queue, and emits `end`; a `createConnection` on any closed
agent fails immediately with AgentClosed and changes nothing (in particular
it enqueues no waiter); and no operation ever clears the `closed` flag, so
every later `createConnection` fails the same way. -/
theorem C6_agent_shutdown :
    (∀ s : AgentState,
      (TunnelAgent.onClose s).state.closed = true ∧
      (TunnelAgent.onClose s).state.waitingCreateConn = [] ∧
      (TunnelAgent.onClose s).endEmitted = true ∧
      (TunnelAgent.onClose s).calls = s.waitingCreateConn.map
        (fun w => { timing := .sync, target := w, arg := .agentClosed })) ∧
    (∀ (s : AgentState) (cb : Waiter), s.closed = true →
      TunnelAgent.createConnection s cb =
        { state := s, calls := [{ timing := .sync, target := cb, arg := .agentClosed }] }) ∧
    (∀ (s : AgentState) (sock : TSocket),
      (TunnelAgent.onConnection s sock).state.closed = s.closed) ∧
    (∀ (s : AgentState) (cb : Waiter),
      (TunnelAgent.createConnection s cb).state.closed = s.closed) ∧
    (∀ s : AgentState, (TunnelAgent.onClose s).state.closed = true) := by
  refine ⟨fun s => by simp [TunnelAgent.onClose], fun s cb h => by simp [TunnelAgent.createConnection, h],
          fun s sock => ?_, fun s cb => ?_, fun s => by simp [TunnelAgent.onClose]⟩
  · by_cases hcap : s.connectedSockets ≥ (s.maxTcpSockets : Int) <;>
      cases hw : s.waitingCreateConn <;>
        simp [TunnelAgent.onConnection, hcap, hw]
  · by_cases hc : s.closed <;> cases ha : s.availableSockets <;>
      simp [TunnelAgent.createConnection, hc, ha]

/-- C6 witness: closing an agent with two queued waiters fails both with
AgentClosed, and a later borrow on the closed state fails immediately. -/
theorem C6_agent_shutdown_witness :
    (TunnelAgent.onClose
      { connectedSockets := 0, maxTcpSockets := 10, availableSockets := [],
        waitingCreateConn := [3, 4], started := true, closed := false }).calls =
      [{ timing := .sync, target := 3, arg := .agentClosed },
       { timing := .sync, target := 4, arg := .agentClosed }] ∧
    TunnelAgent.createConnection
      { connectedSockets := 0, maxTcpSockets := 10, availableSockets := [],
        waitingCreateConn := [], started := true, closed := true } 9 =
      { state := { connectedSockets := 0, maxTcpSockets := 10, availableSockets := [],
                   waitingCreateConn := [], started := true, closed := true },
        calls := [{ timing := .sync, target := 9, arg := .agentClosed }] } :=
  ⟨(C6_agent_shutdown.1 _).2.2.2, C6_agent_shutdown.2.1 _ 9 rfl⟩

/-- A fallback used only to strip the `Except` from a construction that is
known to succeed. -/
def mgrOk (e : Except InitError MState) : MState :=
  match e with
  | .ok m => m
  | .error _ =>
    { clients := [], tunnels := 0,
      pm := { range := none, first := none, last := none, pool := fun _ => none },
      maxTcpSockets := none }

/-- A registry over the one-port range `10:10`. -/
def mgr10 : MState := mgrOk (newClientManager none (some "10:10"))

/-- Step 1: `newClient('alpha')` on the fresh registry: succeeds, takes port 10. -/
def mgrStep1 : MState × Except NewClientError NewClientInfo :=
  mgr10.newClient (some "alpha") none "fresh-one" 0

/-- Step 2: `newClient('beta')`: the range is exhausted, so `agent.listen()` rejects. -/
def mgrStep2 : MState × Except NewClientError NewClientInfo :=
  mgrStep1.1.newClient (some "beta") none "fresh-two" 0

/-- Step 3: `newClient('gamma')`: exhausted again. -/
def mgrStep3 : MState × Except NewClientError NewClientInfo :=
  mgrStep2.1.newClient (some "gamma") none "fresh-three" 0

/-- C3: evaluating the registry on the claim's failing input.  With range
`10:10`, `newClient('alpha')` succeeds (port 10, one tunnel, one client) and
the invariant holds; but each failed `newClient` (`beta`, then `gamma`, both
rejected with ExhaustedRange) runs `removeClient` on its pre-inserted entry,
which decrements `stats.tunnels` that the failed call never incremented:
after the first failure the counter is 0 while the map still holds 1 client,
and after the second it is −1 — the counter neither equals the map size nor
stays non-negative, contradicting the claim (the error itself does
propagate and the pre-inserted entry is removed). -/
theorem C3_failed_listen_desyncs_stats :
    mgrStep1.2 = .ok { id := "alpha", port := 10, maxConnCount := 10 } ∧
    mgrStep1.1.tunnels = 1 ∧ mgrStep1.1.clients.length = 1 ∧
    mgrStep2.2 = .error .exhaustedRange ∧
    mgrStep2.1.tunnels = 0 ∧ mgrStep2.1.clients.length = 1 ∧
    mgrStep2.1.hasClient "beta" = false ∧
    mgrStep3.2 = .error .exhaustedRange ∧
    mgrStep3.1.tunnels = -1 ∧ mgrStep3.1.clients.length = 1 := by
  refine ⟨rfl, rfl, rfl, rfl, rfl, rfl, rfl, rfl, rfl, rfl⟩

/-! ### Helper lemmas about the allocator scan -/

theorem mem_portScanList {f l p : Nat} : p ∈ portScanList f l ↔ f ≤ p ∧ p ≤ l := by
  simp only [portScanList, List.mem_range'_1]
  omega

theorem pairwise_portScanList (f l : Nat) : (portScanList f l).Pairwise (· < ·) :=
  List.pairwise_lt_range' f (l + 1 - f)

theorem scanPorts_none_iff (pool : Pool) (id : String) (ports : List Nat) :
    scanPorts pool id ports = none ↔ ∀ p ∈ ports, pool p ≠ some none := by
  induction ports with
  | nil => simp [scanPorts]
  | cons a rest ih => by_cases h : pool a = some none <;> simp [scanPorts, h, ih]

theorem scanPorts_some_spec (pool : Pool) (id : String) (ports : List Nat)
    (hsort : ports.Pairwise (· < ·)) (p : Nat) (pool2 : Pool)
    (h : scanPorts pool id ports = some (p, pool2)) :
    p ∈ ports ∧ pool p = some none ∧ pool2 = pool.set p (some id) ∧
      ∀ q ∈ ports, pool q = some none → p ≤ q := by
  induction ports with
  | nil => simp [scanPorts] at h
  | cons a rest ih =>
    rw [List.pairwise_cons] at hsort
    by_cases ha : pool a = some none
    · simp only [scanPorts, ha, if_pos, Option.some.injEq, Prod.mk.injEq] at h
      obtain ⟨rfl, rfl⟩ := h
      refine ⟨List.mem_cons_self _ _, ha, rfl, ?_⟩
      intro q hq _
      rcases List.mem_cons.mp hq with rfl | hq
      · exact Nat.le_refl _
      · exact Nat.le_of_lt (hsort.1 q hq)
    · simp only [scanPorts, ha, if_neg, if_false] at h
      obtain ⟨hmem, hfree, hpool, hmin⟩ := ih hsort.2 h
      refine ⟨List.mem_cons_of_mem _ hmem, hfree, hpool, ?_⟩
      intro q hq hfq
      rcases List.mem_cons.mp hq with rfl | hq
      · exact absurd hfq ha
      · exact hmin q hq hfq

theorem scanPorts_isSome (pool : Pool) (id : String) (ports : List Nat)
    (q : Nat) (hq : q ∈ ports) (hfree : pool q = some none) :
    ∃ p pool2, scanPorts pool id ports = some (p, pool2) := by
  induction ports with
  | nil => cases hq
  | cons a rest ih =>
    by_cases ha : pool a = some none
    · exact ⟨a, pool.set a (some id), by simp [scanPorts, ha]⟩
    · rcases List.mem_cons.mp hq with rfl | hq
      · exact absurd hfree ha
      · obtain ⟨p, pool2, hp⟩ := ih hq
        exact ⟨p, pool2, by simp [scanPorts, ha, hp]⟩

theorem scanPorts_congr (pool1 pool2 : Pool) (id : String) (ports : List Nat)
    (h : ∀ p ∈ ports, pool1 p = pool2 p) :
    (scanPorts pool1 id ports = none ∧ scanPorts pool2 id ports = none) ∨
    ∃ p, scanPorts pool1 id ports = some (p, pool1.set p (some id)) ∧
         scanPorts pool2 id ports = some (p, pool2.set p (some id)) := by
  induction ports with
  | nil => exact .inl ⟨rfl, rfl⟩
  | cons a rest ih =>
    have ha2 : pool1 a = pool2 a := h a (List.mem_cons_self _ _)
    by_cases ha : pool1 a = some none
    · exact .inr ⟨a, by simp [scanPorts, ha], by simp [scanPorts, ← ha2, ha]⟩
    · have ha' : ¬ pool2 a = some none := by rw [← ha2]; exact ha
      rcases ih (fun p hp => h p (List.mem_cons_of_mem _ hp)) with ⟨h1, h2⟩ | ⟨p, h1, h2⟩
      · exact .inl ⟨by simp [scanPorts, ha, h1], by simp [scanPorts, ha', h2]⟩
      · exact .inr ⟨p, by simp [scanPorts, ha, h1], by simp [scanPorts, ha', h2]⟩

/-- A fallback used only to strip the `Except` from a `PortManager`
construction that is known to succeed. -/
def pmOk (e : Except InitError PortManager) : PortManager :=
  match e with
  | .ok pm => pm
  | .error _ => { range := none, first := none, last := none, pool := fun _ => none }

/-- The allocator of scenario S2, configured over `10:12`. -/
def s2pm : PortManager := pmOk (newPortManager (some "10:12"))

/-- S2: acquire `a`. -/
def s2a : AcquireOutcome × PortManager := s2pm.getNextAvailable "a"
/-- S2: acquire `b`. -/
def s2b : AcquireOutcome × PortManager := s2a.2.getNextAvailable "b"
/-- S2: acquire `c`. -/
def s2c : AcquireOutcome × PortManager := s2b.2.getNextAvailable "c"
/-- S2: a fourth acquire. -/
def s2d : AcquireOutcome × PortManager := s2c.2.getNextAvailable "d"
/-- S2: `release(11)` then acquire `bb`. -/
def s2e : AcquireOutcome × PortManager := (s2d.2.release 11).getNextAvailable "bb"
/-- S2: `release(10); release(12)` then acquire `cc`. -/
def s2f : AcquireOutcome × PortManager := ((s2e.2.release 10).release 12).getNextAvailable "cc"
/-- S2: acquire `dd`. -/
def s2g : AcquireOutcome × PortManager := s2f.2.getNextAvailable "dd"

/-- C7: `getNextAvailable` on a configured allocator returns the
lowest-numbered free port of `[first, last]` and marks it owned by the
requesting client; when some port is free it cannot fail, and when none is
free it throws ExhaustedRange leaving the allocator untouched.  On an
unconfigured allocator it returns the `undefined` sentinel with no
bookkeeping.  Scenario S2 (range `10:12`): acquires for `a`, `b`, `c` get
10, 11, 12; a fourth acquire is exhausted; after `release(11)` the next
acquire gets 11; after `release(10); release(12)` the next two get 10 then
12. -/
theorem C7_acquire_lowest_free :
    (∀ (pm : PortManager) (id r : String) (f l : Nat),
      pm.range = some r → pm.first = some f → pm.last = some l →
      (∀ p pm2, pm.getNextAvailable id = (.port p, pm2) →
        pm.isFree f l p ∧ (∀ q, pm.isFree f l q → p ≤ q) ∧
        pm2 = { pm with pool := pm.pool.set p (some id) }) ∧
      ((∃ q, pm.isFree f l q) → ∃ p pm2, pm.getNextAvailable id = (.port p, pm2)) ∧
      ((∀ q, ¬ pm.isFree f l q) → pm.getNextAvailable id = (.exhausted, pm))) ∧
    (∀ (pm : PortManager) (id : String), pm.range = none →
      pm.getNextAvailable id = (.sentinel, pm)) ∧
    (s2a.1 = .port 10 ∧ s2b.1 = .port 11 ∧ s2c.1 = .port 12 ∧
     s2d.1 = .exhausted ∧ s2e.1 = .port 11 ∧ s2f.1 = .port 10 ∧ s2g.1 = .port 12) := by
  refine ⟨?_, ?_, rfl, rfl, rfl, rfl, rfl, rfl, rfl⟩
  · intro pm id r f l hr hf hl
    have hfree_iff : ∀ p, pm.isFree f l p ↔ p ∈ portScanList f l ∧ pm.pool p = some none := by
      intro p
      rw [PortManager.isFree, mem_portScanList]
      tauto
    cases hscan : scanPorts pm.pool id (portScanList f l) with
    | none =>
      have hres : pm.getNextAvailable id = (.exhausted, pm) := by
        simp [PortManager.getNextAvailable, hr, hf, hl, hscan]
      refine ⟨?_, ?_, fun _ => hres⟩
      · intro p pm2 hp
        rw [hres] at hp
        exact absurd (congrArg Prod.fst hp) (by simp)
      · intro ⟨q, hq⟩
        rw [hfree_iff] at hq
        exact absurd hscan ((not_iff_not.mpr (scanPorts_none_iff _ _ _)).mpr
          (by push_neg; exact ⟨q, hq.1, hq.2⟩))
    | some v =>
      obtain ⟨p0, pool2⟩ := v
      obtain ⟨hmem, hfree0, hpool2, hmin⟩ :=
        scanPorts_some_spec pm.pool id (portScanList f l) (pairwise_portScanList f l) p0 pool2 hscan
      have hres : pm.getNextAvailable id = (.port p0, { pm with pool := pool2 }) := by
        simp [PortManager.getNextAvailable, hr, hf, hl, hscan]
      refine ⟨?_, fun _ => ⟨p0, { pm with pool := pool2 }, hres⟩, ?_⟩
      · intro p pm2 hp
        rw [hres] at hp
        have h1 : p0 = p := by
          have := congrArg Prod.fst hp
          simpa using this
        have h2 : pm2 = { pm with pool := pool2 } := (congrArg Prod.snd hp).symm
        subst h1
        refine ⟨(hfree_iff p0).mpr ⟨hmem, hfree0⟩, ?_, by rw [h2, hpool2]⟩
        intro q hq
        rw [hfree_iff] at hq
        exact hmin q hq.1 hq.2
      · intro hnone
        exact absurd ((hfree_iff p0).mpr ⟨hmem, hfree0⟩) (hnone p0)
  · intro pm id hr
    simp [PortManager.getNextAvailable, hr]

/-- C7 witness: the unconfigured allocator returns the OS-pick sentinel, and
the lowest-free characterisation applied to the S2 allocator yields port 10
for the first acquire. -/
theorem C7_acquire_lowest_free_witness :
    (pmOk (newPortManager none)).getNextAvailable "x"
      = (.sentinel, pmOk (newPortManager none)) ∧
    s2pm.isFree 10 12 10 :=
  ⟨C7_acquire_lowest_free.2.1 _ "x" rfl,
   (((C7_acquire_lowest_free.1 s2pm "a" "10:12" 10 12 rfl rfl rfl).1 10 s2a.2) rfl).1⟩

/-- C8 counterexample: the empty string does not match `^[0-9]+:[0-9]+$`,
yet constructing with `range: ''` does NOT fail with BadRangeExpression —
`initializePool`'s falsy guard `if (!this.range) return;` runs before the
regex test, so the allocator is accepted and behaves as unconfigured. -/
theorem C8_empty_range_accepted :
    matchesRangeRegex "" = false ∧
    newPortManager (some "") =
      .ok { range := none, first := none, last := none, pool := fun _ => none } :=
  ⟨rfl, rfl⟩

/-- C8 (amended): construction.  With no range — the field absent or the
empty string, both falsy — the accessors all return `null` and `release` /
`getNextAvailable` are no-ops (the latter returning the OS-pick sentinel).
A NON-EMPTY range string that does not match `^[0-9]+:[0-9]+$` fails with
BadRangeExpression; a matching string whose first number exceeds its second
fails with BadRangeExpressionMinGtMax; `"10:20"` yields accessors
`"10:20"`, 10 and 20; and the S1 concrete cases `"a1020"` and `"20:10"`
fail with BadRangeExpression and BadRangeExpressionMinGtMax
respectively. -/
theorem C8_construction :
    (∃ pm : PortManager, newPortManager none = .ok pm ∧
      pm.getRange = none ∧ pm.getFirst = none ∧ pm.getLast = none ∧
      (∀ p, pm.release p = pm) ∧
      (∀ id, pm.getNextAvailable id = (.sentinel, pm))) ∧
    (∃ pm : PortManager, newPortManager (some "") = .ok pm ∧
      pm.getRange = none ∧ pm.getFirst = none ∧ pm.getLast = none ∧
      (∀ p, pm.release p = pm) ∧
      (∀ id, pm.getNextAvailable id = (.sentinel, pm))) ∧
    (∀ r : String, r.isEmpty = false → matchesRangeRegex r = false →
      newPortManager (some r) = .error .badRange) ∧
    (∀ (r : String) (a b : List Char), r.isEmpty = false →
      matchesRangeRegex r = true →
      splitColon [] r.data = [a, b] → parsePort 0 a > parsePort 0 b →
      newPortManager (some r) = .error .minGtMax) ∧
    (∃ pm : PortManager, newPortManager (some "10:20") = .ok pm ∧
      pm.getRange = some "10:20" ∧ pm.getFirst = some 10 ∧ pm.getLast = some 20) ∧
    newPortManager (some "a1020") = .error .badRange ∧
    newPortManager (some "20:10") = .error .minGtMax := by
  refine ⟨⟨_, rfl, rfl, rfl, rfl, fun p => rfl, fun id => rfl⟩,
          ⟨_, rfl, rfl, rfl, rfl, fun p => rfl, fun id => rfl⟩, ?_, ?_,
          ⟨_, rfl, rfl, rfl, rfl⟩, rfl, rfl⟩
  · intro r hemp h
    simp [newPortManager, hemp, h]
  · intro r a b hemp hm hs hgt
    simp [newPortManager, hemp, hm, hs, hgt]

/-- C8 witness: a non-empty string with no colon is rejected as
BadRangeExpression, and a reversed range as BadRangeExpressionMinGtMax. -/
theorem C8_construction_witness :
    newPortManager (some "xyz") = .error .badRange ∧
    newPortManager (some "30:20") = .error .minGtMax :=
  ⟨C8_construction.2.2.1 "xyz" rfl rfl,
   C8_construction.2.2.2.1 "30:20" ['3', '0'] ['2', '0'] rfl rfl rfl (by decide)⟩

/-! ### Observational equivalence of allocators (for C9)

Two allocator states are observationally equivalent when they have the same
configuration and their pools agree on every port of the configured window
`[first, last]` — the only keys any operation ever reads. -/

def obsEquiv (pm1 pm2 : PortManager) : Prop :=
  pm1.range = pm2.range ∧ pm1.first = pm2.first ∧ pm1.last = pm2.last ∧
  ∀ f l p, pm1.first = some f → pm1.last = some l → f ≤ p → p ≤ l →
    pm1.pool p = pm2.pool p

/-- An operation applied to the allocator by some later caller. -/
inductive PMOp where
  | acquire : String → PMOp
  | release : Nat → PMOp

/-- State after one operation (the outcome of an acquire is dropped). -/
def applyOp (pm : PortManager) : PMOp → PortManager
  | .acquire id => (pm.getNextAvailable id).2
  | .release p => pm.release p

/-- State after a sequence of operations. -/
def runOps (pm : PortManager) : List PMOp → PortManager
  | [] => pm
  | op :: rest => runOps (applyOp pm op) rest

theorem getNextAvailable_congr (pm1 pm2 : PortManager) (id : String)
    (h : obsEquiv pm1 pm2) :
    (pm1.getNextAvailable id).1 = (pm2.getNextAvailable id).1 ∧
    obsEquiv (pm1.getNextAvailable id).2 (pm2.getNextAvailable id).2 := by
  obtain ⟨hr, hf, hl, hpool⟩ := h
  cases hrange : pm1.range with
  | none =>
    have e1 : pm1.getNextAvailable id = (.sentinel, pm1) := by
      simp [PortManager.getNextAvailable, hrange]
    have e2 : pm2.getNextAvailable id = (.sentinel, pm2) := by
      simp [PortManager.getNextAvailable, ← hr, hrange]
    rw [e1, e2]
    exact ⟨rfl, hr, hf, hl, hpool⟩
  | some r =>
    have hr2 : pm2.range = some r := by rw [← hr, hrange]
    cases hfirst : pm1.first with
    | none =>
      have hf2 : pm2.first = none := by rw [← hf, hfirst]
      have e1 : pm1.getNextAvailable id = (.exhausted, pm1) := by
        simp [PortManager.getNextAvailable, hrange, hfirst]
      have e2 : pm2.getNextAvailable id = (.exhausted, pm2) := by
        simp [PortManager.getNextAvailable, hr2, hf2]
      rw [e1, e2]
      exact ⟨rfl, hr, hf, hl, hpool⟩
    | some f =>
      have hf2 : pm2.first = some f := by rw [← hf, hfirst]
      cases hlast : pm1.last with
      | none =>
        have hl2 : pm2.last = none := by rw [← hl, hlast]
        have e1 : pm1.getNextAvailable id = (.exhausted, pm1) := by
          simp [PortManager.getNextAvailable, hrange, hfirst, hlast]
        have e2 : pm2.getNextAvailable id = (.exhausted, pm2) := by
          simp [PortManager.getNextAvailable, hr2, hf2, hl2]
        rw [e1, e2]
        exact ⟨rfl, hr, hf, hl, hpool⟩
      | some l =>
        have hl2 : pm2.last = some l := by rw [← hl, hlast]
        have hagree : ∀ p ∈ portScanList f l, pm1.pool p = pm2.pool p := by
          intro p hp
          have := mem_portScanList.mp hp
          exact hpool f l p hfirst hlast this.1 this.2
        rcases scanPorts_congr pm1.pool pm2.pool id (portScanList f l) hagree with
          ⟨h1, h2⟩ | ⟨p, h1, h2⟩
        · have e1 : pm1.getNextAvailable id = (.exhausted, pm1) := by
            simp [PortManager.getNextAvailable, hrange, hfirst, hlast, h1]
          have e2 : pm2.getNextAvailable id = (.exhausted, pm2) := by
            simp [PortManager.getNextAvailable, hr2, hf2, hl2, h2]
          rw [e1, e2]
          exact ⟨rfl, hr, hf, hl, hpool⟩
        · have e1 : pm1.getNextAvailable id =
              (.port p, { pm1 with pool := pm1.pool.set p (some id) }) := by
            simp [PortManager.getNextAvailable, hrange, hfirst, hlast, h1]
          have e2 : pm2.getNextAvailable id =
              (.port p, { pm2 with pool := pm2.pool.set p (some id) }) := by
            simp [PortManager.getNextAvailable, hr2, hf2, hl2, h2]
          rw [e1, e2]
          refine ⟨rfl, hr, hf, hl, ?_⟩
          intro f2 l2 q hfq hlq hq1 hq2
          by_cases hqp : q = p
          · simp [Pool.set, hqp]
          · simp only [Pool.set, if_neg hqp]
            exact hpool f2 l2 q hfq hlq hq1 hq2

theorem release_congr (pm1 pm2 : PortManager) (p : Nat) (h : obsEquiv pm1 pm2) :
    obsEquiv (pm1.release p) (pm2.release p) := by
  obtain ⟨hr, hf, hl, hpool⟩ := h
  cases hrange : pm1.range with
  | none =>
    have e1 : pm1.release p = pm1 := by simp [PortManager.release, hrange]
    have e2 : pm2.release p = pm2 := by simp [PortManager.release, ← hr, hrange]
    rw [e1, e2]
    exact ⟨hr, hf, hl, hpool⟩
  | some r =>
    have hr2 : pm2.range = some r := by rw [← hr, hrange]
    have e1 : pm1.release p = { pm1 with pool := pm1.pool.set p none } := by
      simp [PortManager.release, hrange]
    have e2 : pm2.release p = { pm2 with pool := pm2.pool.set p none } := by
      simp [PortManager.release, hr2]
    rw [e1, e2]
    refine ⟨hr, hf, hl, ?_⟩
    intro f l q hfq hlq hq1 hq2
    by_cases hqp : q = p
    · simp [Pool.set, hqp]
    · simp only [Pool.set, if_neg hqp]
      exact hpool f l q hfq hlq hq1 hq2

theorem runOps_congr (ops : List PMOp) (pm1 pm2 : PortManager)
    (h : obsEquiv pm1 pm2) : obsEquiv (runOps pm1 ops) (runOps pm2 ops) := by
  induction ops generalizing pm1 pm2 with
  | nil => exact h
  | cons op rest ih =>
    cases op with
    | acquire id => exact ih _ _ (getNextAvailable_congr pm1 pm2 id h).2
    | release p => exact ih _ _ (release_congr pm1 pm2 p h)

theorem obsEquiv_refl (pm : PortManager) : obsEquiv pm pm :=
  ⟨rfl, rfl, rfl, fun _ _ _ _ _ _ _ => rfl⟩

/-- C9: `release` is idempotent, releasing a port that is already free (in
particular one never acquired) leaves the allocator literally unchanged, and
releasing a port outside `[first, last]` leaves it observationally
unchanged; consequently, after any such release, every subsequent acquire —
even after an arbitrary further sequence of acquires and releases — returns
exactly the outcome it would have returned without it. -/
theorem C9_release_noop :
    (∀ (pm : PortManager) (p : Nat), (pm.release p).release p = pm.release p) ∧
    (∀ (pm : PortManager) (p : Nat), pm.pool p = some none → pm.release p = pm) ∧
    (∀ (pm : PortManager) (f l p : Nat), pm.first = some f → pm.last = some l →
      (p < f ∨ l < p) → obsEquiv (pm.release p) pm) ∧
    (∀ (pm : PortManager) (f l p : Nat) (ops : List PMOp) (id : String),
      pm.first = some f → pm.last = some l →
      (p < f ∨ l < p ∨ pm.pool p = some none) →
      ((runOps (pm.release p) ops).getNextAvailable id).1
        = ((runOps pm ops).getNextAvailable id).1) := by
  have hidem : ∀ (pm : PortManager) (p : Nat), (pm.release p).release p = pm.release p := by
    intro pm p
    cases hrange : pm.range with
    | none => simp [PortManager.release, hrange]
    | some r =>
      have hset : (pm.pool.set p none).set p none = pm.pool.set p none := by
        funext q
        by_cases hqp : q = p <;> simp [Pool.set, hqp]
      simp [PortManager.release, hrange, hset]
  have hfreeNoop : ∀ (pm : PortManager) (p : Nat),
      pm.pool p = some none → pm.release p = pm := by
    intro pm p hfree
    cases hrange : pm.range with
    | none => simp [PortManager.release, hrange]
    | some r =>
      have hset : pm.pool.set p none = pm.pool := by
        funext q
        by_cases hqp : q = p
        · rw [hqp]
          simp [Pool.set, hfree]
        · simp [Pool.set, hqp]
      have e1 : pm.release p = { pm with pool := pm.pool.set p none } := by
        simp [PortManager.release, hrange]
      rw [e1, hset]
  have hout : ∀ (pm : PortManager) (f l p : Nat), pm.first = some f →
      pm.last = some l → (p < f ∨ l < p) → obsEquiv (pm.release p) pm := by
    intro pm f l p hf hl hrange_out
    cases hrange : pm.range with
    | none =>
      have e1 : pm.release p = pm := by simp [PortManager.release, hrange]
      rw [e1]
      exact obsEquiv_refl pm
    | some r =>
      have e1 : pm.release p = { pm with pool := pm.pool.set p none } := by
        simp [PortManager.release, hrange]
      rw [e1]
      refine ⟨rfl, rfl, rfl, ?_⟩
      intro f2 l2 q hfq hlq hq1 hq2
      have hf2 : f2 = f := by
        have : some f2 = some f := by rw [← hfq, ← hf]
        exact Option.some.inj this
      have hl2 : l2 = l := by
        have : some l2 = some l := by rw [← hlq, ← hl]
        exact Option.some.inj this
      have hqp : q ≠ p := by
        subst hf2; subst hl2
        omega
      simp [Pool.set, hqp]
  refine ⟨hidem, hfreeNoop, hout, ?_⟩
  intro pm f l p ops id hf hl hcase
  rcases hcase with hlt | hgt | hfree
  · have hequiv : obsEquiv (runOps (pm.release p) ops) (runOps pm ops) :=
      runOps_congr ops _ _ (hout pm f l p hf hl (.inl hlt))
    exact (getNextAvailable_congr _ _ id hequiv).1
  · have hequiv : obsEquiv (runOps (pm.release p) ops) (runOps pm ops) :=
      runOps_congr ops _ _ (hout pm f l p hf hl (.inr hgt))
    exact (getNextAvailable_congr _ _ id hequiv).1
  · rw [hfreeNoop pm p hfree]

/-- C9 witness: on the S2 allocator (range `10:12`, all ports free),
releasing the never-acquired port 11 is a literal no-op, and after releasing
the out-of-range port 99 the next acquire still returns port 10. -/
theorem C9_release_noop_witness :
    s2pm.release 11 = s2pm ∧
    ((runOps (s2pm.release 99) []).getNextAvailable "a").1
      = ((runOps s2pm []).getNextAvailable "a").1 :=
  ⟨C9_release_noop.2.1 s2pm 11 rfl,
   C9_release_noop.2.2.2 s2pm 10 12 99 [] "a" rfl rfl (.inr (.inl (by decide)))⟩

end LtServer
